import Mathlib

/-!
Verification of the toxictide per-tick decision pipeline.

This file gives a shallow embedding, over exact rationals, of the parts of
the pipeline that the checked claims are about: price-impact estimation
(features/impact.py), the order book delta application (market/orderbook.py),
trade-tape aggregation (market/tape.py), the stress aggregator
(detectors/stress.py), the signal engine (strategy/signals.py), the tilt
tracker (risk/tilt.py), the risk guardian cascade (risk/guardian.py) and the
execution planner (execution/planner.py).  Machine floats are modelled as
exact rationals; Python dict lookups with defaults are modelled with
association lists and `Option` fields; a Python method that can raise is
modelled as returning the post-call state together with the raised error.
-/

namespace Toxictide

/-- Direction tag used by the impact estimator: "buy" or "sell". -/
inductive MSide
  | buy
  | sell
deriving DecidableEq

/-- Direction tag of a trade candidate: "long" or "short". -/
inductive CSide
  | long
  | short
deriving DecidableEq

/-- One order-book level (models.OrderBookLevel): price and size. -/
structure OrderBookLevel where
  price : ℚ
  size : ℚ
deriving DecidableEq

/-- The 9999.9 sentinel for an unfillable impact walk. -/
def IMPACT_SENTINEL : ℚ := 99999 / 10

/-- Python `min(a, b)` on two numbers, written with an if so that it
evaluates by kernel reduction. -/
def rmin (a b : ℚ) : ℚ := if a ≤ b then a else b

/-- Python `max(a, b)` on two numbers. -/
def rmax (a b : ℚ) : ℚ := if a ≤ b then b else a

theorem rmin_eq_min (a b : ℚ) : rmin a b = min a b := (min_def a b).symm

theorem rmax_eq_max (a b : ℚ) : rmax a b = max a b := (max_def a b).symm

/-- The level-consuming loop of `estimate_impact_bps`
(src/toxictide/features/impact.py, lines 60-75).  Walks the levels in
order; returns `(remaining_usd, total_cost)` exactly as the Python loop
leaves those two variables. -/
def impactWalk : List OrderBookLevel → ℚ → ℚ → ℚ × ℚ
  | [], remaining_usd, total_cost => (remaining_usd, total_cost)
  | level :: rest, remaining_usd, total_cost =>
      if remaining_usd ≤ 0 then (remaining_usd, total_cost)
      else
        let level_usd := level.price * level.size
        let consumed_usd := rmin remaining_usd level_usd
        impactWalk rest (remaining_usd - consumed_usd) (total_cost + consumed_usd)

/-- Embedding of `estimate_impact_bps` (src/toxictide/features/impact.py).
Note: the source accumulates `total_cost += consumed_usd`, so on a full
fill `total_cost` equals `qty_usd` and `avg_price = total_cost / qty_usd`
is 1. -/
def estimate_impact_bps (levels : List OrderBookLevel) (side : MSide)
    (qty_usd mid : ℚ) : ℚ :=
  if qty_usd ≤ 0 then 0
  else if levels.isEmpty then IMPACT_SENTINEL
  else
    let walked := impactWalk levels qty_usd 0
    if 0 < walked.1 then IMPACT_SENTINEL
    else
      let avg_price := if 0 < qty_usd then walked.2 / qty_usd else mid
      let impact_bps :=
        match side with
        | .buy => ((avg_price - mid) / mid) * 10000
        | .sell => ((mid - avg_price) / mid) * 10000
      rmax 0 impact_bps

/-- The walk the specification describes for the impact estimate: consume
the levels in order and track `(remaining_usd, quote_spent, base_bought)`,
so that the size-weighted average fill price of the consumed levels is
`quote_spent / base_bought`.  This definition follows the spec's words
(spec §4.4: "impact_bps = 10000·(avg_fill_price − mid)/mid"), for
comparison with `estimate_impact_bps` above. -/
def specImpactWalk : List OrderBookLevel → ℚ → ℚ × ℚ × ℚ
  | [], remaining_usd => (remaining_usd, 0, 0)
  | level :: rest, remaining_usd =>
      if remaining_usd ≤ 0 then (remaining_usd, 0, 0)
      else
        let level_usd := level.price * level.size
        let consumed_usd := rmin remaining_usd level_usd
        let tail := specImpactWalk rest (remaining_usd - consumed_usd)
        (tail.1, consumed_usd + tail.2.1, consumed_usd / level.price + tail.2.2)

/-- The impact estimate as the specification states it: the size-weighted
average fill price of the consumed levels, compared with mid, floored at 0,
with the 9999.9 sentinel when the depth is insufficient.  Follows the
spec's words, not the source. -/
def specImpactBps (levels : List OrderBookLevel) (side : MSide)
    (qty_usd mid : ℚ) : ℚ :=
  if qty_usd ≤ 0 then 0
  else if levels.isEmpty then IMPACT_SENTINEL
  else
    let walked := specImpactWalk levels qty_usd
    if 0 < walked.1 then IMPACT_SENTINEL
    else
      let avg_fill_price := walked.2.1 / walked.2.2
      match side with
      | .buy => rmax 0 (((avg_fill_price - mid) / mid) * 10000)
      | .sell => rmax 0 (((mid - avg_fill_price) / mid) * 10000)

/-- C1: the claimed behaviour of `estimate_impact_bps` — returning
10000·(avg_fill_price − mid)/mid with the size-weighted average fill
price — fails on the code.  At the input of the repository's own unit
test `test_sufficient_liquidity_buy` (asks = [(100, 10), (101, 10)],
side = buy, qty_usd = 1000, mid = 99.5) the code returns 0 because it
divides the consumed quote amount by itself (`avg_price = 1`), while the
spec's formula gives 10000/199 ≈ 50.25 bps, the value the unit test
expects (strictly between 45 and 55). -/
theorem C1_impact_code_eval :
    estimate_impact_bps [⟨100, 10⟩, ⟨101, 10⟩] MSide.buy 1000 (199 / 2) = 0 ∧
    specImpactBps [⟨100, 10⟩, ⟨101, 10⟩] MSide.buy 1000 (199 / 2) = 10000 / 199 ∧
    ¬ (45 < estimate_impact_bps [⟨100, 10⟩, ⟨101, 10⟩] MSide.buy 1000 (199 / 2) ∧
        estimate_impact_bps [⟨100, 10⟩, ⟨101, 10⟩] MSide.buy 1000 (199 / 2) < 55) ∧
    (45 < (10000 : ℚ) / 199 ∧ (10000 : ℚ) / 199 < 55) := by
  have hwalk : impactWalk [⟨100, 10⟩, ⟨101, 10⟩] 1000 0 = (0, 1000) := by
    norm_num [impactWalk, rmin]
  have hspec : specImpactWalk [⟨100, 10⟩, ⟨101, 10⟩] 1000 = (0, 1000, 10) := by
    norm_num [specImpactWalk, rmin]
  have h0 : estimate_impact_bps [⟨100, 10⟩, ⟨101, 10⟩] MSide.buy 1000 (199 / 2) = 0 := by
    rw [estimate_impact_bps]
    norm_num [hwalk, IMPACT_SENTINEL, rmax]
  have h1 : specImpactBps [⟨100, 10⟩, ⟨101, 10⟩] MSide.buy 1000 (199 / 2) = 10000 / 199 := by
    rw [specImpactBps]
    norm_num [hspec, IMPACT_SENTINEL, rmax]
  refine ⟨h0, h1, ?_, by norm_num, by norm_num⟩
  intro h
  rw [h0] at h
  exact absurd h.1 (by norm_num)

/-! ### Order book (src/toxictide/market/orderbook.py) -/

/-- The side tag of a delta change: "bid" or "ask". -/
inductive BookSide
  | bid
  | ask
deriving DecidableEq

/-- One entry of `apply_delta`'s `changes` list: {side, price, size}. -/
structure BookChange where
  side : BookSide
  price : ℚ
  size : ℚ
deriving DecidableEq

/-- The order book's state: the two price-to-size dicts (kept as
association lists in insertion order), the stored sequence number, the
last-update timestamp and the update counter. -/
structure OrderBook where
  bids : List (ℚ × ℚ)
  asks : List (ℚ × ℚ)
  seq : ℤ
  last_update_ts : ℚ
  update_count : ℕ
deriving DecidableEq

/-- Python dict assignment `m[price] = size`: replace the existing entry
or append a new one. -/
def setLevel : List (ℚ × ℚ) → ℚ → ℚ → List (ℚ × ℚ)
  | [], p, s => [(p, s)]
  | (q, t) :: rest, p, s =>
      if q = p then (q, s) :: rest else (q, t) :: setLevel rest p s

/-- Python `m.pop(price, None)`: drop the entry at that price, if any. -/
def delLevel (m : List (ℚ × ℚ)) (p : ℚ) : List (ℚ × ℚ) :=
  m.filter (fun e => e.1 ≠ p)

/-- Maximum of a list of rationals (`np.max` / Python `max`); 0 on []. -/
def listMax : List ℚ → ℚ
  | [] => 0
  | x :: xs => xs.foldl rmax x

/-- Minimum of a list of rationals (`np.min` / Python `min`); 0 on []. -/
def listMin : List ℚ → ℚ
  | [] => 0
  | x :: xs => xs.foldl rmin x

/-- Embedding of `OrderBook.is_consistent`: an empty side is consistent;
otherwise the best ask must be strictly above the best bid. -/
def is_consistent (b : OrderBook) : Bool :=
  if b.bids.isEmpty || b.asks.isEmpty then true
  else
    let best_bid := listMax (b.bids.map Prod.fst)
    let best_ask := listMin (b.asks.map Prod.fst)
    if best_ask ≤ best_bid then false else true

/-- The errors `apply_delta` can raise. -/
inductive BookError
  | sequenceError
  | orderbookInconsistentError
deriving DecidableEq

/-- One iteration of `apply_delta`'s change loop: size 0 removes the
price, otherwise the size is stored at the price on the given side. -/
def applyChange (b : OrderBook) (c : BookChange) : OrderBook :=
  match c.side with
  | .bid =>
      if c.size = 0 then { b with bids := delLevel b.bids c.price }
      else { b with bids := setLevel b.bids c.price c.size }
  | .ask =>
      if c.size = 0 then { b with asks := delLevel b.asks c.price }
      else { b with asks := setLevel b.asks c.price c.size }

/-- Embedding of `OrderBook.apply_delta`.  A raised exception leaves the
Python object in whatever state the method body had reached, so the
embedding returns the post-call state together with the raised error (if
any): the sequence check happens before any mutation, while the
consistency check happens after the changes, the sequence, the timestamp
and the counter have all been written.  `now` stands for `time.time()`. -/
def apply_delta (b : OrderBook) (changes : List BookChange) (seq : ℤ)
    (now : ℚ) : OrderBook × Option BookError :=
  if seq ≠ b.seq + 1 then (b, some .sequenceError)
  else
    let b1 := changes.foldl applyChange b
    let b2 : OrderBook :=
      { b1 with seq := seq, last_update_ts := now,
                update_count := b1.update_count + 1 }
    if is_consistent b2 then (b2, none)
    else (b2, some .orderbookInconsistentError)

/-- A consistent one-level book at sequence 1, used as the concrete input
of the C3 counterexample. -/
def C3book : OrderBook :=
  { bids := [(100, 10)], asks := [(101, 15)], seq := 1,
    last_update_ts := 0, update_count := 1 }

/-- C3 counterexample: the claim "whenever apply_delta raises any error
the book is exactly the state it had before the call" is false.  Applying
the in-sequence delta that inserts a bid at 102 (above the best ask 101)
raises OrderbookInconsistentError, yet the book keeps the inserted bid,
the bumped sequence and the new timestamp: the mutations are not rolled
back. -/
theorem C3_counterexample :
    (apply_delta C3book [⟨BookSide.bid, 102, 5⟩] 2 7).2 =
      some BookError.orderbookInconsistentError ∧
    (apply_delta C3book [⟨BookSide.bid, 102, 5⟩] 2 7).1 ≠ C3book ∧
    (apply_delta C3book [⟨BookSide.bid, 102, 5⟩] 2 7).1.bids = [(100, 10), (102, 5)] ∧
    (apply_delta C3book [⟨BookSide.bid, 102, 5⟩] 2 7).1.seq = 2 := by
  have happly : apply_delta C3book [⟨BookSide.bid, 102, 5⟩] 2 7 =
      ({ bids := [(100, 10), (102, 5)], asks := [(101, 15)], seq := 2,
         last_update_ts := 7, update_count := 2 },
       some BookError.orderbookInconsistentError) := by
    rw [apply_delta]
    norm_num [C3book, applyChange, setLevel, delLevel, is_consistent,
      listMax, listMin, rmax, rmin]
  rw [happly]
  refine ⟨rfl, ?_, rfl, rfl⟩
  intro h
  have := congrArg OrderBook.seq h
  simp [C3book] at this

/-- C3 (amended): `apply_delta` raises SequenceError exactly when
`seq ≠ stored_seq + 1`, and in that case the book is exactly the state it
had before the call; whenever the sequence check passes — on success and
also when OrderbookInconsistentError is raised afterwards — the changes
are applied, the stored sequence equals `seq` and the timestamp is
updated (the mutations are not rolled back on the inconsistency error). -/
theorem C3_apply_delta_amended (b : OrderBook) (changes : List BookChange)
    (seq : ℤ) (now : ℚ) :
    ((apply_delta b changes seq now).2 = some BookError.sequenceError ↔
      seq ≠ b.seq + 1) ∧
    (seq ≠ b.seq + 1 → (apply_delta b changes seq now).1 = b) ∧
    (seq = b.seq + 1 →
      (apply_delta b changes seq now).1.bids = (changes.foldl applyChange b).bids ∧
      (apply_delta b changes seq now).1.asks = (changes.foldl applyChange b).asks ∧
      (apply_delta b changes seq now).1.seq = seq ∧
      (apply_delta b changes seq now).1.last_update_ts = now) := by
  simp only [apply_delta]
  split_ifs with h hc
  · exact ⟨by simp [h], fun _ => rfl, fun heq => absurd heq h⟩
  · exact ⟨by simp [not_not.mp h], fun hne => absurd hne h, fun _ => by simp⟩
  · exact ⟨by simp [not_not.mp h], fun hne => absurd hne h, fun _ => by simp⟩

/-- C3 witness: the amended theorem applied at concrete inputs — an
out-of-sequence delta (seq 5 against stored seq 1) leaves `C3book`
unchanged, and an in-sequence delta stores sequence 2. -/
theorem C3_apply_delta_amended_witness :
    (apply_delta C3book [] 5 0).1 = C3book ∧
    (apply_delta C3book [⟨BookSide.bid, 102, 5⟩] 2 7).1.seq = 2 :=
  ⟨(C3_apply_delta_amended C3book [] 5 0).2.1 (by norm_num [C3book]),
   ((C3_apply_delta_amended C3book [⟨BookSide.bid, 102, 5⟩] 2 7).2.2
      (by norm_num [C3book])).2.2.1⟩

/-! ### Trade tape (src/toxictide/market/tape.py) -/

/-- A trade's direction tag: "buy", "sell" or "unknown". -/
inductive TradeSide
  | buy
  | sell
  | unknown
deriving DecidableEq

/-- One executed trade (models.Trade). -/
structure Trade where
  ts : ℚ
  price : ℚ
  size : ℚ
  side : TradeSide
deriving DecidableEq

/-- The aggregate statistics record (tape.TradeAggregation). -/
structure TradeAggregation where
  vol : ℚ
  trades : ℕ
  buy_vol : ℚ
  sell_vol : ℚ
  avg_trade : ℚ
  max_trade : ℚ
  min_trade : ℚ
  vwap : ℚ
  signed_imbalance : ℚ
deriving DecidableEq

/-- The body of `TradeTape.aggregate`'s accumulation loop, one trade at a
time over `(buy_vol, sell_vol, total_notional)`: a buy adds its full size
to buy_vol, a sell to sell_vol, an unknown side adds half to each. -/
def aggStep (acc : ℚ × ℚ × ℚ) (t : Trade) : ℚ × ℚ × ℚ :=
  match t.side with
  | .buy => (acc.1 + t.size, acc.2.1, acc.2.2 + t.price * t.size)
  | .sell => (acc.1, acc.2.1 + t.size, acc.2.2 + t.price * t.size)
  | .unknown => (acc.1 + t.size / 2, acc.2.1 + t.size / 2, acc.2.2 + t.price * t.size)

/-- Embedding of `TradeTape.aggregate` on the list of trades in the
window (the lazy time eviction of `recent` selects that list; the
aggregation itself is a pure function of it). -/
def aggregate (trades : List Trade) : TradeAggregation :=
  if trades.isEmpty then
    { vol := 0, trades := 0, buy_vol := 0, sell_vol := 0, avg_trade := 0,
      max_trade := 0, min_trade := 0, vwap := 0, signed_imbalance := 0 }
  else
    let acc := trades.foldl aggStep (0, 0, 0)
    let buy_vol := acc.1
    let sell_vol := acc.2.1
    let total_notional := acc.2.2
    let total_vol := buy_vol + sell_vol
    let trades_count := trades.length
    let trade_sizes := trades.map Trade.size
    let avg_trade := if 0 < trades_count then total_vol / trades_count else 0
    let max_trade := if trade_sizes.isEmpty then 0 else listMax trade_sizes
    let min_trade := if trade_sizes.isEmpty then 0 else listMin trade_sizes
    let vwap := if 0 < total_vol then total_notional / total_vol else 0
    let signed_imb := (buy_vol - sell_vol) / (buy_vol + sell_vol + 1 / 1000000000)
    { vol := total_vol, trades := trades_count, buy_vol := buy_vol,
      sell_vol := sell_vol, avg_trade := avg_trade, max_trade := max_trade,
      min_trade := min_trade, vwap := vwap, signed_imbalance := signed_imb }

/-- What one trade contributes to buy_vol: its size for a buy, nothing
for a sell, half its size for an unknown side. -/
def buyContrib (t : Trade) : ℚ :=
  match t.side with
  | .buy => t.size
  | .sell => 0
  | .unknown => t.size / 2

/-- What one trade contributes to sell_vol. -/
def sellContrib (t : Trade) : ℚ :=
  match t.side with
  | .buy => 0
  | .sell => t.size
  | .unknown => t.size / 2

/-- The accumulation loop computes the per-side contribution sums and the
total notional, whatever the starting accumulator. -/
theorem aggStep_foldl (trades : List Trade) (acc : ℚ × ℚ × ℚ) :
    trades.foldl aggStep acc =
      (acc.1 + (trades.map buyContrib).sum,
       acc.2.1 + (trades.map sellContrib).sum,
       acc.2.2 + (trades.map (fun t => t.price * t.size)).sum) := by
  induction trades generalizing acc with
  | nil => simp
  | cons t rest ih =>
    rw [List.foldl_cons, ih]
    cases h : t.side <;>
      simp [aggStep, buyContrib, sellContrib, h, Prod.ext_iff] <;>
      and_intros <;> ring

/-- C9: for every list of trades in the aggregation window, buy_vol is
the sum of the per-trade buy contributions (full size for side=buy, half
for side=unknown), sell_vol symmetrically, buy_vol + sell_vol equals the
total volume, and the signed imbalance equals
(buy_vol − sell_vol)/(buy_vol + sell_vol + 1e-9). -/
theorem C9_aggregate_volumes (trades : List Trade) :
    (aggregate trades).buy_vol = (trades.map buyContrib).sum ∧
    (aggregate trades).sell_vol = (trades.map sellContrib).sum ∧
    (aggregate trades).vol = (aggregate trades).buy_vol + (aggregate trades).sell_vol ∧
    (aggregate trades).signed_imbalance =
      ((aggregate trades).buy_vol - (aggregate trades).sell_vol) /
        ((aggregate trades).buy_vol + (aggregate trades).sell_vol + 1 / 1000000000) := by
  rw [aggregate]
  split_ifs with h
  · rw [List.isEmpty_iff.mp h]
    norm_num
  · simp only [aggStep_foldl trades (0, 0, 0)]
    norm_num

/-- C9 witness: the aggregation evaluated on a concrete three-trade
window holding one buy, one sell and one unknown-side trade. -/
theorem C9_aggregate_volumes_witness :
    (aggregate [⟨0, 10, 4, TradeSide.buy⟩, ⟨1, 11, 2, TradeSide.sell⟩,
        ⟨2, 12, 6, TradeSide.unknown⟩]).buy_vol =
      ([⟨0, 10, 4, TradeSide.buy⟩, ⟨1, 11, 2, TradeSide.sell⟩,
        ⟨2, 12, 6, TradeSide.unknown⟩].map buyContrib).sum :=
  (C9_aggregate_volumes [⟨0, 10, 4, TradeSide.buy⟩, ⟨1, 11, 2, TradeSide.sell⟩,
    ⟨2, 12, 6, TradeSide.unknown⟩]).1

/-! ### Stress aggregator (src/toxictide/detectors/stress.py) -/

/-- The three-valued anomaly/stress level. -/
inductive AnomalyLevel
  | OK
  | WARN
  | DANGER
deriving DecidableEq

/-- The `levels_priority` map of `compute_stress`: OK 0, WARN 1, DANGER 2. -/
def levelPriority : AnomalyLevel → ℕ
  | .OK => 0
  | .WARN => 1
  | .DANGER => 2

/-- Python `triggers.get(key, default)` on a string-keyed float dict. -/
def dictGet (m : List (String × ℚ)) (k : String) (d : ℚ) : ℚ :=
  match m.find? (fun e => e.1 == k) with
  | some e => e.2
  | none => d

/-- The OAD liquidity state tag. -/
inductive LiquidityState
  | THICK
  | THIN
  | TOXIC
deriving DecidableEq

/-- OAD output (models.OrderbookAnomalyReport). -/
structure OrderbookAnomalyReport where
  ts : ℚ
  level : AnomalyLevel
  score : ℚ
  triggers : List (String × ℚ)
  liquidity_state : LiquidityState
deriving DecidableEq

/-- VAD output (models.VolumeAnomalyReport). -/
structure VolumeAnomalyReport where
  ts : ℚ
  level : AnomalyLevel
  score : ℚ
  triggers : List (String × ℚ)
  events : List (String × Bool)
deriving DecidableEq

/-- Stress output (models.MarketStressIndex). -/
structure MarketStressIndex where
  ts : ℚ
  level : AnomalyLevel
  score : ℚ
  components : List (String × ℚ)
deriving DecidableEq

/-- Python `max(a, b, key=priority)` over two levels: b when its priority
is strictly greater, otherwise a. -/
def maxLevel (a b : AnomalyLevel) : AnomalyLevel :=
  if levelPriority a < levelPriority b then b else a

/-- Embedding of `compute_stress` (the Python signature also receives a
`config` dict that the body never reads, so it is omitted here). -/
def compute_stress (oad : OrderbookAnomalyReport) (vad : VolumeAnomalyReport) :
    MarketStressIndex :=
  let oad_score := oad.score
  let vad_score := vad.score
  let spread_z := dictGet oad.triggers "spread_z" 0
  let impact_buy_z := dictGet oad.triggers "impact_buy_z" 0
  let impact_sell_z := dictGet oad.triggers "impact_sell_z" 0
  let impact_z := rmax impact_buy_z impact_sell_z
  let toxic := dictGet vad.triggers "toxic" 0
  let vol_z := dictGet vad.triggers "vol_z" 0
  let components := [("oad_score", oad_score), ("vad_score", vad_score),
    ("spread_z", spread_z), ("impact_z", impact_z), ("toxic", toxic),
    ("vol_z", vol_z)]
  let score := oad_score * (1 / 2) + vad_score * (3 / 10) + toxic * 5
  let max_level := maxLevel oad.level vad.level
  { ts := oad.ts, level := max_level, score := score, components := components }

/-- C8: `compute_stress` is a pure function of the two reports whose
score is 0.5·oad.score + 0.3·vad.score + 5·toxic (toxic read from the VAD
triggers, 0 when absent), and whose level is the maximum of oad.level and
vad.level under the priority ordering OK < WARN < DANGER (it is always
one of the two input levels, with the larger priority of the two). -/
theorem C8_compute_stress (oad : OrderbookAnomalyReport) (vad : VolumeAnomalyReport) :
    (compute_stress oad vad).score =
      (1 / 2) * oad.score + (3 / 10) * vad.score + 5 * dictGet vad.triggers "toxic" 0 ∧
    levelPriority (compute_stress oad vad).level =
      max (levelPriority oad.level) (levelPriority vad.level) ∧
    ((compute_stress oad vad).level = oad.level ∨
      (compute_stress oad vad).level = vad.level) := by
  refine ⟨by simp [compute_stress]; ring, ?_, ?_⟩
  · cases hoad : oad.level <;> cases hvad : vad.level <;>
      simp [compute_stress, maxLevel, levelPriority, hoad, hvad]
  · cases hoad : oad.level <;> cases hvad : vad.level <;>
      simp [compute_stress, maxLevel, levelPriority, hoad, hvad]

/-! ### Feature vector, regime, policy and candidate records -/

/-- The feature record (models.FeatureVector); all 19 scalar fields. -/
structure FeatureVector where
  ts : ℚ
  mid : ℚ
  spread : ℚ
  spread_bps : ℚ
  top_bid_sz : ℚ
  top_ask_sz : ℚ
  depth_bid_k : ℚ
  depth_ask_k : ℚ
  imb_k : ℚ
  micro_minus_mid : ℚ
  impact_buy_bps : ℚ
  impact_sell_bps : ℚ
  msg_rate : ℚ
  churn : ℚ
  vol : ℚ
  trades : ℕ
  avg_trade : ℚ
  max_trade : ℚ
  signed_imb : ℚ
  toxic : ℚ
deriving DecidableEq

/-- Price-regime tag. -/
inductive PriceRegime
  | TREND_UP
  | TREND_DOWN
  | RANGE
deriving DecidableEq

/-- Volatility-regime tag. -/
inductive VolRegime
  | HIGHVOL
  | NORMALVOL
  | LOWVOL
deriving DecidableEq

/-- Flow-regime tag. -/
inductive FlowRegime
  | TOXIC
  | ACTIVE
  | CALM
deriving DecidableEq

/-- The regime classification record (models.RegimeState). -/
structure RegimeState where
  ts : ℚ
  price_regime : PriceRegime
  vol_regime : VolRegime
  flow_regime : FlowRegime
  confidence : ℚ
deriving DecidableEq

/-- A trade candidate (models.TradeCandidate). -/
structure TradeCandidate where
  ts : ℚ
  side : CSide
  entry_price : ℚ
  stop_price : ℚ
  tp_price : Option ℚ
  confidence : ℚ
  ttl_sec : ℕ
  strategy : String
deriving DecidableEq

/-- The policy dict, with `Option` fields standing for keys that may be
absent; readers use `.get(key, default)` (`Option.getD` here). -/
structure Policy where
  max_daily_loss_pct : Option ℚ
  max_position_notional : Option ℚ
  max_trades_per_hour : Option ℚ
  impact_hard_cap_bps : Option ℚ
  impact_entry_cap_bps : Option ℚ
  allowed_strategies : Option (List String)
deriving DecidableEq

/-! ### Signal engine (src/toxictide/strategy/signals.py) -/

/-- The signal engine's state: its `deque(maxlen=100)` of (ts, mid). -/
structure SignalEngineState where
  price_history : List (ℚ × ℚ)
deriving DecidableEq

/-- Appending to a `deque(maxlen=100)`: the new entry goes to the back
and the front is dropped once the length exceeds 100. -/
def pushPrice (h : List (ℚ × ℚ)) (entry : ℚ × ℚ) : List (ℚ × ℚ) :=
  let h2 := h ++ [entry]
  if 100 < h2.length then h2.drop (h2.length - 100) else h2

/-- The Python slice `l[-n:]`: the last (at most) n elements. -/
def lastN (n : ℕ) (l : List ℚ) : List ℚ := l.drop (l.length - n)

/-- np.mean of a list of rationals ([] gives 0 by rational division). -/
def listMean (l : List ℚ) : ℚ := l.sum / l.length

/-- The square of np.std: the population variance. -/
def listVar (l : List ℚ) : ℚ :=
  ((l.map fun x => (x - listMean l) ^ 2).sum) / l.length

/-- Embedding of `SignalEngine._trend_breakout`: only in TREND_UP or
TREND_DOWN with ACTIVE flow; long when mid exceeds 1.001 times the max of
the last 20 history mids, short when mid is below 0.999 times their min. -/
def trend_breakout (history : List (ℚ × ℚ)) (fv : FeatureVector)
    (regime : RegimeState) : Option TradeCandidate :=
  if regime.price_regime ≠ .TREND_UP ∧ regime.price_regime ≠ .TREND_DOWN then none
  else if regime.flow_regime ≠ .ACTIVE then none
  else
    let prices := history.map Prod.snd
    let recent_high := listMax (lastN 20 prices)
    let recent_low := listMin (lastN 20 prices)
    let current_price := fv.mid
    if current_price > recent_high * (1001 / 1000) then
      some { ts := fv.ts, side := .long, entry_price := current_price,
             stop_price := current_price * (199 / 200),
             tp_price := some (current_price * (101 / 100)),
             confidence := 7 / 10, ttl_sec := 300, strategy := "trend_breakout" }
    else if current_price < recent_low * (999 / 1000) then
      some { ts := fv.ts, side := .short, entry_price := current_price,
             stop_price := current_price * (201 / 200),
             tp_price := some (current_price * (99 / 100)),
             confidence := 7 / 10, ttl_sec := 300, strategy := "trend_breakout" }
    else none

/-- Embedding of `SignalEngine._range_mean_revert`: only in RANGE with
CALM flow; compares mid against mean ± 1.5·std over the last 30 history
mids.  A float square root is not rational, so the comparison
`current < mean − 1.5·std` is embedded by the equivalent sign-and-square
test `current < mean ∧ (mean − current)² > 1.5²·var` (and symmetrically
for the short side). -/
def range_mean_revert (history : List (ℚ × ℚ)) (fv : FeatureVector)
    (regime : RegimeState) : Option TradeCandidate :=
  if regime.price_regime ≠ .RANGE then none
  else if regime.flow_regime ≠ .CALM then none
  else
    let prices := history.map Prod.snd
    let mean_price := listMean (lastN 30 prices)
    let var_price := listVar (lastN 30 prices)
    let current_price := fv.mid
    if current_price < mean_price ∧
        (mean_price - current_price) ^ 2 > (3 / 2) ^ 2 * var_price then
      some { ts := fv.ts, side := .long, entry_price := current_price,
             stop_price := current_price * (499 / 500),
             tp_price := some mean_price,
             confidence := 3 / 5, ttl_sec := 600, strategy := "range_mean_revert" }
    else if current_price > mean_price ∧
        (current_price - mean_price) ^ 2 > (3 / 2) ^ 2 * var_price then
      some { ts := fv.ts, side := .short, entry_price := current_price,
             stop_price := current_price * (501 / 500),
             tp_price := some mean_price,
             confidence := 3 / 5, ttl_sec := 600, strategy := "range_mean_revert" }
    else none

/-- Embedding of `SignalEngine.generate`: record the (ts, mid) pair in
the price history, then gate (TOXIC flow, empty whitelist, fewer than 5
points), then try trend breakout and range mean-revert in that order,
each only when whitelisted.  Returns the updated engine state and the
optional candidate. -/
def generate (st : SignalEngineState) (fv : FeatureVector)
    (regime : RegimeState) (policy : Policy) :
    SignalEngineState × Option TradeCandidate :=
  let history := pushPrice st.price_history (fv.ts, fv.mid)
  let st2 : SignalEngineState := ⟨history⟩
  if regime.flow_regime = .TOXIC then (st2, none)
  else
    let allowed_strategies := policy.allowed_strategies.getD []
    if allowed_strategies.isEmpty then (st2, none)
    else if history.length < 5 then (st2, none)
    else
      match
        (if "trend_breakout" ∈ allowed_strategies then
          trend_breakout history fv regime
        else none) with
      | some c => (st2, some c)
      | none =>
        match
          (if "range_mean_revert" ∈ allowed_strategies then
            range_mean_revert history fv regime
          else none) with
        | some c => (st2, some c)
        | none => (st2, none)

/-- The starting accumulator is below a `foldl rmax`. -/
theorem le_foldl_rmax (l : List ℚ) (a : ℚ) : a ≤ l.foldl rmax a := by
  induction l generalizing a with
  | nil => exact le_refl a
  | cons y ys ih =>
    rw [List.foldl_cons]
    exact le_trans (by rw [rmax_eq_max]; exact le_max_left a y) (ih (rmax a y))

/-- Every member of the list is below its `foldl rmax`. -/
theorem mem_le_foldl_rmax (l : List ℚ) (a x : ℚ) (hx : x ∈ l) :
    x ≤ l.foldl rmax a := by
  induction l generalizing a with
  | nil => cases hx
  | cons y ys ih =>
    rw [List.foldl_cons]
    rcases List.mem_cons.mp hx with rfl | hx2
    · exact le_trans (by rw [rmax_eq_max]; exact le_max_right a x)
        (le_foldl_rmax ys (rmax a x))
    · exact ih (rmax a y) hx2

/-- Every member of a list is at most its `listMax`. -/
theorem le_listMax_of_mem {x : ℚ} {l : List ℚ} (hx : x ∈ l) : x ≤ listMax l := by
  cases l with
  | nil => cases hx
  | cons y ys =>
    rw [listMax]
    rcases List.mem_cons.mp hx with rfl | hx2
    · exact le_foldl_rmax ys x
    · exact mem_le_foldl_rmax ys y x hx2

/-- The starting accumulator is above a `foldl rmin`. -/
theorem foldl_rmin_le (l : List ℚ) (a : ℚ) : l.foldl rmin a ≤ a := by
  induction l generalizing a with
  | nil => exact le_refl a
  | cons y ys ih =>
    rw [List.foldl_cons]
    exact le_trans (ih (rmin a y)) (by rw [rmin_eq_min]; exact min_le_left a y)

/-- Every member of the list is above its `foldl rmin`. -/
theorem foldl_rmin_le_mem (l : List ℚ) (a x : ℚ) (hx : x ∈ l) :
    l.foldl rmin a ≤ x := by
  induction l generalizing a with
  | nil => cases hx
  | cons y ys ih =>
    rw [List.foldl_cons]
    rcases List.mem_cons.mp hx with rfl | hx2
    · exact le_trans (foldl_rmin_le ys (rmin a x))
        (by rw [rmin_eq_min]; exact min_le_right a x)
    · exact ih (rmin a y) hx2

/-- Every member of a list is at least its `listMin`. -/
theorem listMin_le_of_mem {x : ℚ} {l : List ℚ} (hx : x ∈ l) : listMin l ≤ x := by
  cases l with
  | nil => cases hx
  | cons y ys =>
    rw [listMin]
    rcases List.mem_cons.mp hx with rfl | hx2
    · exact foldl_rmin_le ys x
    · exact foldl_rmin_le_mem ys y x hx2

/-- `pushPrice` always yields a list ending in the pushed entry. -/
theorem pushPrice_concat (h : List (ℚ × ℚ)) (e : ℚ × ℚ) :
    ∃ B, pushPrice h e = B ++ [e] := by
  rw [pushPrice]
  split_ifs with hc
  · refine ⟨h.drop ((h ++ [e]).length - 100), ?_⟩
    rw [List.drop_append_of_le_length (by simp)]
  · exact ⟨h, rfl⟩

/-- The appended element is inside the `l[-20:]` window. -/
theorem mem_lastN_concat (A : List ℚ) (x : ℚ) : x ∈ lastN 20 (A ++ [x]) := by
  rw [lastN, List.drop_append_of_le_length (by simp)]
  exact List.mem_append_right _ (List.mem_singleton.mpr rfl)

/-- `generate` records the current mid before `_trend_breakout` computes
the 20-point high and low, so the window always contains the current mid
and the breakout conditions `mid > 1.001·recent_high` and
`mid < 0.999·recent_low` are unsatisfiable at any positive mid:
`_trend_breakout` can never emit a candidate from a pushed history. -/
theorem trend_breakout_push_none (h : List (ℚ × ℚ)) (ts : ℚ)
    (fv : FeatureVector) (regime : RegimeState) (hmid : 0 < fv.mid) :
    trend_breakout (pushPrice h (ts, fv.mid)) fv regime = none := by
  obtain ⟨B, hB⟩ := pushPrice_concat h (ts, fv.mid)
  have hmem : fv.mid ∈ lastN 20 ((pushPrice h (ts, fv.mid)).map Prod.snd) := by
    rw [hB, List.map_append]
    exact mem_lastN_concat (B.map Prod.snd) fv.mid
  have hhigh := le_listMax_of_mem hmem
  have hlow := listMin_le_of_mem hmem
  simp only [trend_breakout]
  split_ifs with h1 h2 h3 h4 <;> first
    | rfl
    | (exfalso; linarith)

/-- The price history the C2 scenario prescribes: mids ascending from
2000 to 2020 in steps of 0.5 (the state of the engine's deque after
those warm-up ticks; timestamps are the tick indices). -/
def C2history : List (ℚ × ℚ) :=
  [(0, 2000), (1, 4001 / 2), (2, 2001), (3, 4003 / 2), (4, 2002),
   (5, 4005 / 2), (6, 2003), (7, 4007 / 2), (8, 2004), (9, 4009 / 2),
   (10, 2005), (11, 4011 / 2), (12, 2006), (13, 4013 / 2), (14, 2007),
   (15, 4015 / 2), (16, 2008), (17, 4017 / 2), (18, 2009), (19, 4019 / 2),
   (20, 2010), (21, 4021 / 2), (22, 2011), (23, 4023 / 2), (24, 2012),
   (25, 4025 / 2), (26, 2013), (27, 4027 / 2), (28, 2014), (29, 4029 / 2),
   (30, 2015), (31, 4031 / 2), (32, 2016), (33, 4033 / 2), (34, 2017),
   (35, 4035 / 2), (36, 2018), (37, 4037 / 2), (38, 2019), (39, 4039 / 2),
   (40, 2020)]

/-- The feature vector of the C2 breakout tick: mid = 2021 (the other
fields as in the repository's own signal-engine unit test). -/
def C2fv : FeatureVector :=
  { ts := 41, mid := 2021, spread := 1, spread_bps := 5, top_bid_sz := 10,
    top_ask_sz := 10, depth_bid_k := 50000, depth_ask_k := 50000,
    imb_k := 0, micro_minus_mid := 0, impact_buy_bps := 5,
    impact_sell_bps := 5, msg_rate := 10, churn := 1000, vol := 100,
    trades := 10, avg_trade := 10, max_trade := 20, signed_imb := 0,
    toxic := 3 / 10 }

/-- TREND_UP price regime with ACTIVE flow. -/
def C2regime : RegimeState :=
  { ts := 41, price_regime := .TREND_UP, vol_regime := .NORMALVOL,
    flow_regime := .ACTIVE, confidence := 4 / 5 }

/-- A policy whose whitelist allows exactly trend_breakout. -/
def C2policy : Policy :=
  { max_daily_loss_pct := none, max_position_notional := none,
    max_trades_per_hour := none, impact_hard_cap_bps := none,
    impact_entry_cap_bps := none,
    allowed_strategies := some ["trend_breakout"] }

/-- C2: the claimed breakout does not fire.  On the claimed concrete
input — mids ascending from 2000 to 2020, then a tick with mid = 2021 in
TREND_UP/ACTIVE with trend_breakout whitelisted — `SignalEngine.generate`
returns no candidate: the engine appends the current mid to its history
before taking the 20-point high, so 2021 is its own recent high and
`2021 > 1.001·2021` is false (the repository's own test
`test_trend_breakout_long` expects a candidate on this input). -/
theorem C2_generate_no_breakout :
    (generate ⟨C2history⟩ C2fv C2regime C2policy).2 = none := by
  have hmid : (0 : ℚ) < C2fv.mid := by norm_num [C2fv]
  have hb := trend_breakout_push_none C2history C2fv.ts C2fv C2regime hmid
  simp only [generate, hb]
  simp +decide [C2regime, C2policy, C2fv, pushPrice, C2history]

/-! ### Reason codes (src/toxictide/risk/reason_codes.py) -/

def DATA_INCONSISTENT : String := "DATA_INCONSISTENT"

def DATA_STALE : String := "DATA_STALE"

def DAILY_LOSS_EXCEEDED : String := "DAILY_LOSS_EXCEEDED"

def COOLDOWN_ACTIVE : String := "COOLDOWN_ACTIVE"

def POSITION_LIMIT_EXCEEDED : String := "POSITION_LIMIT_EXCEEDED"

def IMPACT_HARD_CAP_EXCEEDED : String := "IMPACT_HARD_CAP_EXCEEDED"

def IMPACT_ENTRY_CAP_EXCEEDED : String := "IMPACT_ENTRY_CAP_EXCEEDED"

def TOXIC_DANGER_LEVEL : String := "TOXIC_DANGER_LEVEL"

def TOXIC_WARN_LEVEL : String := "TOXIC_WARN_LEVEL"

def MARKET_STRESS_DANGER : String := "MARKET_STRESS_DANGER"

def TRADE_FREQUENCY_EXCEEDED : String := "TRADE_FREQUENCY_EXCEEDED"

def RISK_POSITION_SIZE_REDUCED : String := "RISK_POSITION_SIZE_REDUCED"

def NO_SIGNAL : String := "NO_SIGNAL"

/-! ### Tilt tracker (src/toxictide/risk/tilt.py) -/

/-- The tilt tracker's state: the (ts, pnl) deque, the accumulated daily
PnL and the date of the last daily reset. -/
structure TiltTracker where
  trades : List (ℚ × ℚ)
  daily_pnl : ℚ
  last_reset_date : Option String
deriving DecidableEq

/-- Embedding of `TiltTracker.trades_last_hour`: the number of recorded
trades whose timestamp is at least `ts − 3600`. -/
def trades_last_hour (tilt : TiltTracker) (ts : ℚ) : ℕ :=
  (tilt.trades.filter fun e => decide (ts - 3600 ≤ e.1)).length

/-- Embedding of `TiltTracker.daily_pnl_pct`: 100·daily_pnl/balance, and
0 when the balance is not positive. -/
def daily_pnl_pct (tilt : TiltTracker) (balance : ℚ) : ℚ :=
  if balance ≤ 0 then 0 else tilt.daily_pnl / balance * 100

/-! ### Risk guardian (src/toxictide/risk/guardian.py) -/

/-- The guardian's three-valued decision action. -/
inductive RiskAction
  | ALLOW
  | ALLOW_WITH_REDUCTIONS
  | DENY
deriving DecidableEq

/-- The risk decision record (models.RiskDecision); `facts` keeps the
string-keyed float dict as an association list in insertion order. -/
structure RiskDecision where
  ts : ℚ
  action : RiskAction
  size_usd : ℚ
  max_slippage_bps : ℚ
  cooldown_until_ts : Option ℚ
  reasons : List String
  facts : List (String × ℚ)
deriving DecidableEq

/-- The guardian's own state: the tilt tracker, the optional cooldown
deadline, the last book-update timestamp, and the two thresholds the
method reads from `self._config["vad"]`. -/
structure RiskGuardianState where
  tilt : TiltTracker
  cooldown_until : Option ℚ
  last_book_update_ts : ℚ
  toxic_warn : ℚ
  toxic_danger : ℚ
deriving DecidableEq

/-- The account dict; keys may be absent (`.get` supplies defaults). -/
structure Account where
  balance : Option ℚ
  position_notional : Option ℚ
deriving DecidableEq

/-- Python `if self._cooldown_until and ts < self._cooldown_until`: a
missing deadline and the float 0.0 are both falsy. -/
def cooldownActive (cooldown_until : Option ℚ) (ts : ℚ) : Bool :=
  match cooldown_until with
  | none => false
  | some c => decide (¬ c = 0) && decide (ts < c)

/-- The side-matched impact, `fv.impact_buy_bps if candidate.side ==
"long" else fv.impact_sell_bps` (the idiom shared by guardian.py and
planner.py). -/
def impactForSide (side : CSide) (fv : FeatureVector) : ℚ :=
  match side with
  | .long => fv.impact_buy_bps
  | .short => fv.impact_sell_bps

/-- The closing, no-deny stretch of `RiskGuardian.assess` (guardian.py,
"允许交易，但可能减仓", lines 269-307): starting from the base size and
the facts accumulated so far, apply the three size reductions — ×0.5
when the impact exceeds the entry cap (reason IMPACT_ENTRY_CAP_EXCEEDED),
×0.7 when toxic reaches toxic_warn (reason TOXIC_WARN_LEVEL), ×0.5 when
the stress level is WARN — and return ALLOW, or ALLOW_WITH_REDUCTIONS
with reason RISK_POSITION_SIZE_REDUCED when the multiplier dropped
below 1. -/
def assessReductions (ts impact_bps toxic impact_entry_cap toxic_warn : ℚ)
    (stress_level : AnomalyLevel) (base_size : ℚ)
    (facts4 : List (String × ℚ)) : RiskDecision :=
  let sm1 : ℚ := 1
  let sm2 := if impact_bps > impact_entry_cap then sm1 * (1 / 2) else sm1
  let reasons1 :=
    if impact_bps > impact_entry_cap then [IMPACT_ENTRY_CAP_EXCEEDED]
    else ([] : List String)
  let sm3 := if toxic ≥ toxic_warn then sm2 * (7 / 10) else sm2
  let reasons2 :=
    if toxic ≥ toxic_warn then reasons1 ++ [TOXIC_WARN_LEVEL] else reasons1
  let facts5 :=
    if toxic ≥ toxic_warn then facts4 ++ [("toxic_warn", toxic_warn)] else facts4
  let sm4 := if stress_level = .WARN then sm3 * (1 / 2) else sm3
  let final_size := base_size * sm4
  if sm4 < 1 then
    { ts := ts, action := .ALLOW_WITH_REDUCTIONS, size_usd := final_size,
      max_slippage_bps := rmin (impact_bps * (3 / 2)) 15,
      cooldown_until_ts := none,
      reasons := reasons2 ++ [RISK_POSITION_SIZE_REDUCED],
      facts := facts5 ++ [("original_size", base_size),
                          ("reduced_size", final_size)] }
  else
    { ts := ts, action := .ALLOW, size_usd := final_size,
      max_slippage_bps := rmin (impact_bps * (3 / 2)) 15,
      cooldown_until_ts := none, reasons := reasons2, facts := facts5 }

/-- Embedding of `RiskGuardian.assess`.  The method never assigns any of
the guardian's attributes, so each Python `return` site is embedded as a
pair of the decision and the guardian state it leaves behind.  The
closing reduction stretch of the method is `assessReductions` above.
The `oad` argument is received and never read, exactly as in the
source. -/
def assess (g : RiskGuardianState) (candidate : Option TradeCandidate)
    (fv : FeatureVector) (oad : OrderbookAnomalyReport)
    (vad : VolumeAnomalyReport) (stress : MarketStressIndex)
    (account : Account) (policy : Policy) :
    RiskDecision × RiskGuardianState :=
  let ts := fv.ts
  match candidate with
  | none =>
      ({ ts := ts, action := .DENY, size_usd := 0, max_slippage_bps := 0,
         cooldown_until_ts := none, reasons := [NO_SIGNAL], facts := [] }, g)
  | some cand =>
      if ts - g.last_book_update_ts > 10 then
        ({ ts := ts, action := .DENY, size_usd := 0, max_slippage_bps := 0,
           cooldown_until_ts := none, reasons := [DATA_STALE],
           facts := [("stale_sec", ts - g.last_book_update_ts)] }, g)
      else if fv.spread ≤ 0 then
        ({ ts := ts, action := .DENY, size_usd := 0, max_slippage_bps := 0,
           cooldown_until_ts := none, reasons := [DATA_INCONSISTENT],
           facts := [("spread", fv.spread)] }, g)
      else
        let balance := account.balance.getD 10000
        let dpp := daily_pnl_pct g.tilt balance
        let max_daily_loss_pct := policy.max_daily_loss_pct.getD 1
        let facts1 := [("daily_pnl_pct", dpp),
                       ("max_daily_loss_pct", max_daily_loss_pct)]
        if dpp < -max_daily_loss_pct then
          ({ ts := ts, action := .DENY, size_usd := 0, max_slippage_bps := 0,
             cooldown_until_ts := none, reasons := [DAILY_LOSS_EXCEEDED],
             facts := facts1 }, g)
        else if cooldownActive g.cooldown_until ts then
          ({ ts := ts, action := .DENY, size_usd := 0, max_slippage_bps := 0,
             cooldown_until_ts := none, reasons := [COOLDOWN_ACTIVE],
             facts := facts1 ++
               [("cooldown_remaining_sec", g.cooldown_until.getD 0 - ts)] }, g)
        else
          let position_notional := account.position_notional.getD 0
          let max_position_notional := policy.max_position_notional.getD 3000
          let facts2 := facts1 ++
            [("position_notional", position_notional),
             ("max_position_notional", max_position_notional)]
          if position_notional ≥ max_position_notional then
            ({ ts := ts, action := .DENY, size_usd := 0, max_slippage_bps := 0,
               cooldown_until_ts := none, reasons := [POSITION_LIMIT_EXCEEDED],
               facts := facts2 }, g)
          else
            let impact_bps := impactForSide cand.side fv
            let toxic := dictGet vad.triggers "toxic" 0
            let impact_hard_cap := policy.impact_hard_cap_bps.getD 20
            let impact_entry_cap := policy.impact_entry_cap_bps.getD 10
            let toxic_danger := g.toxic_danger
            let facts3 := facts2 ++
              [("impact_bps", impact_bps), ("toxic", toxic),
               ("hard_cap_bps", impact_hard_cap),
               ("entry_cap_bps", impact_entry_cap),
               ("toxic_danger", toxic_danger)]
            if impact_bps > impact_hard_cap then
              ({ ts := ts, action := .DENY, size_usd := 0, max_slippage_bps := 0,
                 cooldown_until_ts := none, reasons := [IMPACT_HARD_CAP_EXCEEDED],
                 facts := facts3 }, g)
            else if toxic ≥ toxic_danger then
              ({ ts := ts, action := .DENY, size_usd := 0, max_slippage_bps := 0,
                 cooldown_until_ts := none, reasons := [TOXIC_DANGER_LEVEL],
                 facts := facts3 }, g)
            else if stress.level = .DANGER then
              ({ ts := ts, action := .DENY, size_usd := 0, max_slippage_bps := 0,
                 cooldown_until_ts := none, reasons := [MARKET_STRESS_DANGER],
                 facts := facts3 }, g)
            else
              let tlh := trades_last_hour g.tilt ts
              let max_trades_per_hour := policy.max_trades_per_hour.getD 6
              let facts4 := facts3 ++
                [("trades_last_hour", (tlh : ℚ)),
                 ("max_trades_per_hour", max_trades_per_hour)]
              if (tlh : ℚ) ≥ max_trades_per_hour then
                ({ ts := ts, action := .DENY, size_usd := 0, max_slippage_bps := 0,
                   cooldown_until_ts := none, reasons := [TRADE_FREQUENCY_EXCEEDED],
                   facts := facts4 }, g)
              else
                let max_position := policy.max_position_notional.getD 3000
                let base_size := rmin 1000 (max_position - position_notional)
                (assessReductions ts impact_bps toxic impact_entry_cap
                  g.toxic_warn stress.level base_size facts4, g)

set_option maxHeartbeats 2000000 in
/-- C10: `RiskGuardian.assess` never mutates the guardian's state — the
tilt tracker's trade history and daily PnL, the cooldown deadline and the
last book-update timestamp are the same before and after the call — so a
second call from the resulting state with the same arguments returns the
same decision. -/
theorem C10_assess_frame (g : RiskGuardianState) (cand : Option TradeCandidate)
    (fv : FeatureVector) (oad : OrderbookAnomalyReport)
    (vad : VolumeAnomalyReport) (stress : MarketStressIndex)
    (account : Account) (policy : Policy) :
    (assess g cand fv oad vad stress account policy).2 = g ∧
    (assess (assess g cand fv oad vad stress account policy).2
        cand fv oad vad stress account policy).1 =
      (assess g cand fv oad vad stress account policy).1 := by
  have hframe : (assess g cand fv oad vad stress account policy).2 = g := by
    rcases cand with _ | cand
    · rfl
    · simp only [assess]
      by_cases h1 : fv.ts - g.last_book_update_ts > 10
      · rw [if_pos h1]
      rw [if_neg h1]
      by_cases h2 : fv.spread ≤ 0
      · rw [if_pos h2]
      rw [if_neg h2]
      by_cases h3 : daily_pnl_pct g.tilt (account.balance.getD 10000) <
          -policy.max_daily_loss_pct.getD 1
      · rw [if_pos h3]
      rw [if_neg h3]
      by_cases h4 : cooldownActive g.cooldown_until fv.ts = true
      · rw [if_pos h4]
      rw [if_neg h4]
      by_cases h5 : account.position_notional.getD 0 ≥
          policy.max_position_notional.getD 3000
      · rw [if_pos h5]
      rw [if_neg h5]
      by_cases h6 : impactForSide cand.side fv > policy.impact_hard_cap_bps.getD 20
      · rw [if_pos h6]
      rw [if_neg h6]
      by_cases h7 : dictGet vad.triggers "toxic" 0 ≥ g.toxic_danger
      · rw [if_pos h7]
      rw [if_neg h7]
      by_cases h8 : stress.level = AnomalyLevel.DANGER
      · rw [if_pos h8]
      rw [if_neg h8]
      by_cases h9 : ((trades_last_hour g.tilt fv.ts : ℚ)) ≥
          policy.max_trades_per_hour.getD 6
      · rw [if_pos h9]
      rw [if_neg h9]
  exact ⟨hframe, by rw [hframe]⟩

/-- The base size of the reduction branch is positive whenever the
position cap did not fire. -/
theorem rmin_base_pos {mp pn : ℚ} (h : ¬ pn ≥ mp) : 0 < rmin 1000 (mp - pn) := by
  rw [rmin_eq_min]
  exact lt_min (by norm_num) (by linarith [not_le.mp h])

theorem if_half_pos (c : Prop) [Decidable c] : 0 < (if c then (1 : ℚ) / 2 else 1) := by
  split_ifs <;> norm_num

theorem if_seven_tenths_pos (c : Prop) [Decidable c] :
    0 < (if c then (7 : ℚ) / 10 else 1) := by
  split_ifs <;> norm_num

/-- What the closing reduction stretch guarantees: an ALLOW or
ALLOW_WITH_REDUCTIONS action; a size equal to the base times the three
conditional multipliers; RISK_POSITION_SIZE_REDUCED on every
ALLOW_WITH_REDUCTIONS; each reduction reason exactly when its condition
fired; and max_slippage_bps = min(1.5·impact, 15). -/
theorem assessReductions_props (ts impact toxic cap warn : ℚ)
    (lvl : AnomalyLevel) (base : ℚ) (facts : List (String × ℚ)) :
    ((assessReductions ts impact toxic cap warn lvl base facts).action = .ALLOW ∨
      (assessReductions ts impact toxic cap warn lvl base facts).action =
        .ALLOW_WITH_REDUCTIONS) ∧
    (assessReductions ts impact toxic cap warn lvl base facts).size_usd =
      base * ((if impact > cap then (1 : ℚ) / 2 else 1) *
        ((if toxic ≥ warn then (7 : ℚ) / 10 else 1) *
          (if lvl = .WARN then (1 : ℚ) / 2 else 1))) ∧
    ((assessReductions ts impact toxic cap warn lvl base facts).action =
        .ALLOW_WITH_REDUCTIONS →
      RISK_POSITION_SIZE_REDUCED ∈
        (assessReductions ts impact toxic cap warn lvl base facts).reasons) ∧
    ((impact > cap) ↔ IMPACT_ENTRY_CAP_EXCEEDED ∈
      (assessReductions ts impact toxic cap warn lvl base facts).reasons) ∧
    ((toxic ≥ warn) ↔ TOXIC_WARN_LEVEL ∈
      (assessReductions ts impact toxic cap warn lvl base facts).reasons) ∧
    (assessReductions ts impact toxic cap warn lvl base facts).max_slippage_bps =
      rmin (impact * (3 / 2)) 15 := by
  simp only [assessReductions]
  split_ifs with c1 c2 c3 c4 <;>
    norm_num [IMPACT_ENTRY_CAP_EXCEEDED, TOXIC_WARN_LEVEL,
      RISK_POSITION_SIZE_REDUCED] <;>
    first
      | ring1
      | (exfalso; revert c4; norm_num; done)
      | (and_intros <;> first | linarith | (simp_all +decide; done))

/-- Case analysis of `assess` on a present candidate: either some deny
rule fired (action DENY, size 0), or none did and the decision is the
reduction decision on a positive base size. -/
theorem assess_some_cases (g : RiskGuardianState) (cand : TradeCandidate)
    (fv : FeatureVector) (oad : OrderbookAnomalyReport)
    (vad : VolumeAnomalyReport) (stress : MarketStressIndex)
    (account : Account) (policy : Policy) (d : RiskDecision)
    (hd : d = (assess g (some cand) fv oad vad stress account policy).1) :
    (d.action = .DENY ∧ d.size_usd = 0) ∨
    (0 < rmin 1000 (policy.max_position_notional.getD 3000 -
        account.position_notional.getD 0) ∧
      ∃ f4, d = assessReductions fv.ts (impactForSide cand.side fv)
        (dictGet vad.triggers "toxic" 0)
        (policy.impact_entry_cap_bps.getD 10) g.toxic_warn stress.level
        (rmin 1000 (policy.max_position_notional.getD 3000 -
          account.position_notional.getD 0)) f4) := by
  simp only [assess] at hd
  by_cases h1 : fv.ts - g.last_book_update_ts > 10
  · rw [if_pos h1] at hd
    exact Or.inl ⟨by rw [hd], by rw [hd]⟩
  rw [if_neg h1] at hd
  by_cases h2 : fv.spread ≤ 0
  · rw [if_pos h2] at hd
    exact Or.inl ⟨by rw [hd], by rw [hd]⟩
  rw [if_neg h2] at hd
  by_cases h3 : daily_pnl_pct g.tilt (account.balance.getD 10000) <
      -policy.max_daily_loss_pct.getD 1
  · rw [if_pos h3] at hd
    exact Or.inl ⟨by rw [hd], by rw [hd]⟩
  rw [if_neg h3] at hd
  by_cases h4 : cooldownActive g.cooldown_until fv.ts = true
  · rw [if_pos h4] at hd
    exact Or.inl ⟨by rw [hd], by rw [hd]⟩
  rw [if_neg h4] at hd
  by_cases h5 : account.position_notional.getD 0 ≥
      policy.max_position_notional.getD 3000
  · rw [if_pos h5] at hd
    exact Or.inl ⟨by rw [hd], by rw [hd]⟩
  rw [if_neg h5] at hd
  by_cases h6 : impactForSide cand.side fv > policy.impact_hard_cap_bps.getD 20
  · rw [if_pos h6] at hd
    exact Or.inl ⟨by rw [hd], by rw [hd]⟩
  rw [if_neg h6] at hd
  by_cases h7 : dictGet vad.triggers "toxic" 0 ≥ g.toxic_danger
  · rw [if_pos h7] at hd
    exact Or.inl ⟨by rw [hd], by rw [hd]⟩
  rw [if_neg h7] at hd
  by_cases h8 : stress.level = AnomalyLevel.DANGER
  · rw [if_pos h8] at hd
    exact Or.inl ⟨by rw [hd], by rw [hd]⟩
  rw [if_neg h8] at hd
  by_cases h9 : ((trades_last_hour g.tilt fv.ts : ℚ)) ≥
      policy.max_trades_per_hour.getD 6
  · rw [if_pos h9] at hd
    exact Or.inl ⟨by rw [hd], by rw [hd]⟩
  rw [if_neg h9] at hd
  exact Or.inr ⟨rmin_base_pos h5, _, by rw [hd]⟩

set_option maxHeartbeats 2000000 in
/-- C4: `assess` returns exactly one of the three actions; the action is
DENY (equivalently: DENY or no candidate, since the no-candidate path
denies) if and only if the granted size is 0; and every
ALLOW_WITH_REDUCTIONS decision carries the RISK_POSITION_SIZE_REDUCED
reason. -/
theorem C4_assess_action_invariant (g : RiskGuardianState)
    (cand : Option TradeCandidate) (fv : FeatureVector)
    (oad : OrderbookAnomalyReport) (vad : VolumeAnomalyReport)
    (stress : MarketStressIndex) (account : Account) (policy : Policy) :
    ((assess g cand fv oad vad stress account policy).1.action = .ALLOW ∨
      (assess g cand fv oad vad stress account policy).1.action = .ALLOW_WITH_REDUCTIONS ∨
      (assess g cand fv oad vad stress account policy).1.action = .DENY) ∧
    (((assess g cand fv oad vad stress account policy).1.action = .DENY ∨ cand = none) ↔
      (assess g cand fv oad vad stress account policy).1.size_usd = 0) ∧
    ((assess g cand fv oad vad stress account policy).1.action = .ALLOW_WITH_REDUCTIONS →
      RISK_POSITION_SIZE_REDUCED ∈ (assess g cand fv oad vad stress account policy).1.reasons) := by
  rcases cand with _ | cand
  · simp [assess]
  · rcases assess_some_cases g cand fv oad vad stress account policy _ rfl with
      ⟨ha, hs⟩ | ⟨hbase, f4, hred⟩
    · refine ⟨Or.inr (Or.inr ha), ⟨fun _ => hs, fun _ => Or.inl ha⟩, fun hA => ?_⟩
      rw [ha] at hA
      cases hA
    · obtain ⟨hact, hsize, hmem, _, _, _⟩ :=
        assessReductions_props fv.ts (impactForSide cand.side fv)
          (dictGet vad.triggers "toxic" 0)
          (policy.impact_entry_cap_bps.getD 10) g.toxic_warn stress.level
          (rmin 1000 (policy.max_position_notional.getD 3000 -
            account.position_notional.getD 0)) f4
      rw [← hred] at hact hsize hmem
      have hpos : 0 < (assess g (some cand) fv oad vad stress account policy).1.size_usd := by
        rw [hsize]
        exact mul_pos hbase (mul_pos (if_half_pos _)
          (mul_pos (if_seven_tenths_pos _) (if_half_pos _)))
      refine ⟨?_, ⟨?_, ?_⟩, hmem⟩
      · rcases hact with h | h
        · exact Or.inl h
        · exact Or.inr (Or.inl h)
      · intro hor
        rcases hor with hdeny | hnone
        · rcases hact with h | h <;> rw [h] at hdeny <;> cases hdeny
        · cases hnone
      · intro h0
        exact absurd h0 (ne_of_gt hpos)

set_option maxHeartbeats 1000000 in
/-- C5: whenever no DENY rule of the cascade triggers, the granted size
is base·multiplier with base = min(1000, max_position_notional −
position_notional), the multiplier collecting ×0.5 (with reason
IMPACT_ENTRY_CAP_EXCEEDED) when the side-matched impact exceeds the
entry cap, ×0.7 (with reason TOXIC_WARN_LEVEL) when toxic ≥ toxic_warn,
and ×0.5 when the stress level is WARN; and max_slippage_bps =
min(1.5·impact, 15). -/
theorem C5_assess_sizing (g : RiskGuardianState) (cand : TradeCandidate)
    (fv : FeatureVector) (oad : OrderbookAnomalyReport)
    (vad : VolumeAnomalyReport) (stress : MarketStressIndex)
    (account : Account) (policy : Policy)
    (h : (assess g (some cand) fv oad vad stress account policy).1.action ≠ .DENY) :
    (assess g (some cand) fv oad vad stress account policy).1.size_usd =
      rmin 1000 (policy.max_position_notional.getD 3000 -
          account.position_notional.getD 0) *
        ((if impactForSide cand.side fv > policy.impact_entry_cap_bps.getD 10
            then (1 : ℚ) / 2 else 1) *
          ((if dictGet vad.triggers "toxic" 0 ≥ g.toxic_warn
              then (7 : ℚ) / 10 else 1) *
            (if stress.level = .WARN then (1 : ℚ) / 2 else 1))) ∧
    ((impactForSide cand.side fv > policy.impact_entry_cap_bps.getD 10) ↔
      IMPACT_ENTRY_CAP_EXCEEDED ∈
        (assess g (some cand) fv oad vad stress account policy).1.reasons) ∧
    ((dictGet vad.triggers "toxic" 0 ≥ g.toxic_warn) ↔
      TOXIC_WARN_LEVEL ∈
        (assess g (some cand) fv oad vad stress account policy).1.reasons) ∧
    (assess g (some cand) fv oad vad stress account policy).1.max_slippage_bps =
      rmin (impactForSide cand.side fv * (3 / 2)) 15 := by
  rcases assess_some_cases g cand fv oad vad stress account policy _ rfl with
    ⟨ha, _⟩ | ⟨_, f4, hred⟩
  · exact absurd ha h
  · rw [hred]
    obtain ⟨_, hsize, _, hic, htw, hslip⟩ :=
      assessReductions_props fv.ts (impactForSide cand.side fv)
        (dictGet vad.triggers "toxic" 0) (policy.impact_entry_cap_bps.getD 10)
        g.toxic_warn stress.level
        (rmin 1000 (policy.max_position_notional.getD 3000 -
          account.position_notional.getD 0)) f4
    exact ⟨hsize, hic, htw, hslip⟩

/-- A guardian state with empty tilt history, no cooldown, a fresh book
timestamp, toxic_warn = 0.6 and toxic_danger = 0.75. -/
def gOK : RiskGuardianState :=
  { tilt := { trades := [], daily_pnl := 0, last_reset_date := none },
    cooldown_until := none, last_book_update_ts := 0,
    toxic_warn := 3 / 5, toxic_danger := 3 / 4 }

/-- A quiet feature vector: mid 2000, spread 1, both impacts 5 bps. -/
def fvOK : FeatureVector :=
  { ts := 0, mid := 2000, spread := 1, spread_bps := 5, top_bid_sz := 10,
    top_ask_sz := 10, depth_bid_k := 50000, depth_ask_k := 50000,
    imb_k := 0, micro_minus_mid := 0, impact_buy_bps := 5,
    impact_sell_bps := 5, msg_rate := 10, churn := 1000, vol := 100,
    trades := 10, avg_trade := 10, max_trade := 20, signed_imb := 0,
    toxic := 3 / 10 }

/-- A long candidate at entry 2000. -/
def candLong : TradeCandidate :=
  { ts := 0, side := .long, entry_price := 2000, stop_price := 1990,
    tp_price := some 2020, confidence := 7 / 10, ttl_sec := 300,
    strategy := "trend_breakout" }

/-- An all-clear OAD report. -/
def oadOK : OrderbookAnomalyReport :=
  { ts := 0, level := .OK, score := 0, triggers := [],
    liquidity_state := .THICK }

/-- An all-clear VAD report (no "toxic" trigger recorded). -/
def vadOK : VolumeAnomalyReport :=
  { ts := 0, level := .OK, score := 0, triggers := [], events := [] }

/-- An all-clear stress index. -/
def stressOK : MarketStressIndex :=
  { ts := 0, level := .OK, score := 0, components := [] }

/-- An account with balance 10000 and no open position. -/
def acctOK : Account := { balance := some 10000, position_notional := some 0 }

/-- The quiet inputs produce an ALLOW decision. -/
theorem assess_gOK_allow :
    (assess gOK (some candLong) fvOK oadOK vadOK stressOK acctOK C2policy).1.action =
      RiskAction.ALLOW := by
  rw [assess]
  norm_num [gOK, fvOK, candLong, oadOK, vadOK, stressOK, acctOK, C2policy,
    daily_pnl_pct, trades_last_hour, cooldownActive, dictGet, impactForSide,
    assessReductions, rmin]
  simp +decide

/-- C5 witness: the sizing theorem applied at the quiet concrete inputs
(the assembled decision is an ALLOW). -/
theorem C5_assess_sizing_witness :
    (assess gOK (some candLong) fvOK oadOK vadOK stressOK acctOK C2policy).1.max_slippage_bps =
      rmin (impactForSide candLong.side fvOK * (3 / 2)) 15 :=
  (C5_assess_sizing gOK candLong fvOK oadOK vadOK stressOK acctOK C2policy
    (by rw [assess_gOK_allow]; intro hc; cases hc)).2.2.2

/-! ### Execution planner (src/toxictide/execution/planner.py) -/

/-- The order type tag of a planned order. -/
inductive OrderType
  | limit
  | market
deriving DecidableEq

/-- One order dict of an execution plan; keys a mode does not set are
`none` (slicing and maker orders carry a price, slicing orders a delay,
taker orders a reduce_only flag). -/
structure PlanOrder where
  type : OrderType
  side : CSide
  price : Option ℚ
  size_usd : ℚ
  time_delay_sec : Option ℚ
  reduce_only : Option Bool
deriving DecidableEq

/-- The plan's execution mode. -/
inductive PlanMode
  | maker
  | taker
  | slicing
  | reduce_only
deriving DecidableEq

/-- The execution plan record (models.ExecutionPlan). -/
structure ExecutionPlan where
  ts : ℚ
  orders : List PlanOrder
  mode : PlanMode
  reasons : List String
deriving DecidableEq

/-- Embedding of `ExecutionPlanner.plan`; `slicing_threshold` is the
required config value `execution.slicing_threshold_bps`.  DENY yields the
empty reduce_only plan with the risk decision's reasons; a missing
candidate the empty reduce_only plan with reason NO_SIGNAL; then a
side-matched impact at or above the threshold yields 5 sliced limit
orders 10 seconds apart, toxic ≥ 0.6 one market order, and otherwise one
maker limit order. -/
def plan (slicing_threshold : ℚ) (risk : RiskDecision)
    (candidate : Option TradeCandidate) (fv : FeatureVector)
    (vad : VolumeAnomalyReport) : ExecutionPlan :=
  let ts := fv.ts
  if risk.action = .DENY then
    { ts := ts, orders := [], mode := .reduce_only, reasons := risk.reasons }
  else
    match candidate with
    | none =>
        { ts := ts, orders := [], mode := .reduce_only, reasons := ["NO_SIGNAL"] }
    | some cand =>
        let impact_bps := impactForSide cand.side fv
        let toxic := dictGet vad.triggers "toxic" 0
        if impact_bps ≥ slicing_threshold then
          let num_slices : ℕ := 5
          let slice_size := risk.size_usd / (num_slices : ℚ)
          let orders := (List.range num_slices).map fun i =>
            { type := .limit, side := cand.side, price := some cand.entry_price,
              size_usd := slice_size, time_delay_sec := some ((i : ℚ) * 10),
              reduce_only := none : PlanOrder }
          { ts := ts, orders := orders, mode := .slicing,
            reasons := ["HIGH_IMPACT_SLICING"] }
        else if toxic ≥ 3 / 5 then
          { ts := ts,
            orders := [{ type := .market, side := cand.side, price := none,
                         size_usd := risk.size_usd, time_delay_sec := none,
                         reduce_only := some false }],
            mode := .taker, reasons := ["TOXIC_TAKER_ONLY"] }
        else
          { ts := ts,
            orders := [{ type := .limit, side := cand.side,
                         price := some cand.entry_price,
                         size_usd := risk.size_usd, time_delay_sec := none,
                         reduce_only := none }],
            mode := .maker, reasons := ["NORMAL_MAKER"] }

/-- C6: for a non-DENY decision and a candidate whose side-matched impact
reaches the slicing threshold, the plan is slicing mode with exactly five
limit orders at the candidate's entry price, each of size
risk.size_usd/5, with delays 0, 10, 20, 30, 40 seconds in order, and the
sizes sum to risk.size_usd. -/
theorem C6_plan_slicing (thr : ℚ) (risk : RiskDecision) (cand : TradeCandidate)
    (fv : FeatureVector) (vad : VolumeAnomalyReport)
    (h1 : risk.action ≠ .DENY)
    (h2 : impactForSide cand.side fv ≥ thr) :
    plan thr risk (some cand) fv vad =
      { ts := fv.ts,
        orders := [
          { type := .limit, side := cand.side, price := some cand.entry_price,
            size_usd := risk.size_usd / 5, time_delay_sec := some 0,
            reduce_only := none },
          { type := .limit, side := cand.side, price := some cand.entry_price,
            size_usd := risk.size_usd / 5, time_delay_sec := some 10,
            reduce_only := none },
          { type := .limit, side := cand.side, price := some cand.entry_price,
            size_usd := risk.size_usd / 5, time_delay_sec := some 20,
            reduce_only := none },
          { type := .limit, side := cand.side, price := some cand.entry_price,
            size_usd := risk.size_usd / 5, time_delay_sec := some 30,
            reduce_only := none },
          { type := .limit, side := cand.side, price := some cand.entry_price,
            size_usd := risk.size_usd / 5, time_delay_sec := some 40,
            reduce_only := none }],
        mode := .slicing, reasons := ["HIGH_IMPACT_SLICING"] } ∧
    ((plan thr risk (some cand) fv vad).orders.map PlanOrder.size_usd).sum =
      risk.size_usd := by
  have hrange : List.range 5 = [0, 1, 2, 3, 4] := rfl
  have hplan : plan thr risk (some cand) fv vad =
      { ts := fv.ts,
        orders := (List.range 5).map fun i =>
          { type := .limit, side := cand.side, price := some cand.entry_price,
            size_usd := risk.size_usd / 5, time_delay_sec := some ((i : ℚ) * 10),
            reduce_only := none },
        mode := .slicing, reasons := ["HIGH_IMPACT_SLICING"] } := by
    rw [plan]
    rw [if_neg h1]
    simp only [if_pos h2]
    norm_num
  constructor
  · rw [hplan, hrange]
    norm_num
  · rw [hplan, hrange]
    norm_num
    ring

/-- An arbitrary allowing risk decision granting 1000 USD. -/
def riskAllow : RiskDecision :=
  { ts := 0, action := .ALLOW, size_usd := 1000, max_slippage_bps := 15 / 2,
    cooldown_until_ts := none, reasons := [], facts := [] }

/-- C6 witness: the slicing theorem applied at a concrete non-DENY
decision of 1000 USD with impact 5 bps at threshold 5. -/
theorem C6_plan_slicing_witness :
    ((plan 5 riskAllow (some candLong) fvOK vadOK).orders.map
      PlanOrder.size_usd).sum = riskAllow.size_usd :=
  (C6_plan_slicing 5 riskAllow candLong fvOK vadOK
    (by intro hc; cases hc)
    (by norm_num [impactForSide, candLong, fvOK])).2

/-- C7: with no candidate, `assess` returns DENY with reasons exactly
[NO_SIGNAL] and size 0; and for every DENY decision `plan` returns the
empty order list in reduce_only mode carrying the decision's reasons (so
the no-candidate tick plans nothing, with reason NO_SIGNAL). -/
theorem C7_no_signal (g : RiskGuardianState) (fv : FeatureVector)
    (oad : OrderbookAnomalyReport) (vad : VolumeAnomalyReport)
    (stress : MarketStressIndex) (account : Account) (policy : Policy)
    (thr : ℚ) (risk : RiskDecision) (cand : Option TradeCandidate)
    (fv2 : FeatureVector) (vad2 : VolumeAnomalyReport)
    (h : risk.action = .DENY) :
    (assess g none fv oad vad stress account policy).1 =
      { ts := fv.ts, action := .DENY, size_usd := 0, max_slippage_bps := 0,
        cooldown_until_ts := none, reasons := [NO_SIGNAL], facts := [] } ∧
    plan thr risk cand fv2 vad2 =
      { ts := fv2.ts, orders := [], mode := .reduce_only,
        reasons := risk.reasons } := by
  constructor
  · rfl
  · simp only [plan]
    rw [if_pos h]

/-- C7 witness: chaining the two halves at concrete inputs — the
no-candidate tick is denied with NO_SIGNAL and its plan is the empty
reduce_only plan carrying that reason. -/
theorem C7_no_signal_witness :
    plan 10 (assess gOK none fvOK oadOK vadOK stressOK acctOK C2policy).1
        none fvOK vadOK =
      { ts := fvOK.ts, orders := [], mode := .reduce_only,
        reasons := [NO_SIGNAL] } := by
  have h := C7_no_signal gOK fvOK oadOK vadOK stressOK acctOK C2policy 10
    (assess gOK none fvOK oadOK vadOK stressOK acctOK C2policy).1 none fvOK vadOK
    rfl
  rw [h.2, h.1]

end Toxictide
